import Mathlib

/-
Shallow embedding of src/lambda_function.py (a single AWS Lambda handler that
fetches traffic data, derives a congestion classification, an accident
message and route details, encrypts and stores the combined record, and
publishes an SNS alert).

Modelling conventions:
* Python numbers are modelled by PyNum: Python ints as ZZ, Python floats as
  exact rationals QQ (binary float arithmetic is idealised as exact rational
  arithmetic, and float formatting or printing is defined on the exact value).
* JSON values (the upstream payload parsed by response.json()) are modelled
  by JVal.  Unchecked dictionary/list access is modelled by functions
  returning Except DataErr, where DataErr enumerates exactly the Python
  exceptions such access can raise (KeyError, TypeError, IndexError,
  AttributeError, ValueError).  None of these exception classes is caught by
  the except clauses of lambda_handler, which catch only
  requests.exceptions.RequestException, botocore NoCredentialsError and
  boto3.exceptions.Boto3Error; the type PyExc keeps the two groups apart.
* The AWS SDK calls (S3 put_object, SNS publish) and the HTTP fetch are
  modelled by an environment HandlerEnv that injects the outcome of each
  external call, exactly like mocks in a test; externally visible side
  effects that actually happened are accumulated in a list of Effect.
* The Fernet cipher used for encryption is library code that is not part of
  this repository; it is modelled from the spec as a keyed byte-stream
  cipher (see fernetEncrypt below).
-/

/-- A decimal digit character: decDigit n is the character for n when n < 10. -/
def decDigit (n : ℕ) : Char := Char.ofNat (48 + n)

/-- Round a rational to the nearest integer, ties to even.  This models the
rounding used by Python float formatting (IEEE round-half-even, idealised to
the exact rational value). -/
def roundHalfEven (q : ℚ) : ℤ :=
  let f : ℤ := ⌊q⌋
  let r : ℚ := q - (f : ℚ)
  if r < 1/2 then f
  else if 1/2 < r then f + 1
  else if f % 2 = 0 then f else f + 1

/-- Python format specifier .2f on the exact value of a number: the value
rounded to centi-units (half to even), printed with exactly two digits after
the decimal point (model of the f-string formatting on lines 157 and 196 of
src/lambda_function.py). -/
def fmt2 (q : ℚ) : String :=
  let c : ℤ := roundHalfEven (q * 100)
  let a : ℕ := c.natAbs
  (if c < 0 then "-" else "") ++ toString (a / 100) ++ "." ++
    String.mk [decDigit (a / 10 % 10), decDigit (a % 10)]

/-- The first n digits of the decimal expansion of the fractional part of a
nonnegative rational below 1. -/
def fracDigitList : ℚ → ℕ → List ℕ
  | _, 0 => []
  | q, Nat.succ n =>
    let d : ℤ := ⌊q * 10⌋
    d.toNat :: fracDigitList (q * 10 - (d : ℚ)) n

/-- Python str() of a float, on its exact rational value: sign, integer part,
a dot, and the fractional digits with trailing zeros removed but at least one
digit kept (str(2.0) is "2.0", str(1.2) is "1.2").  Exact whenever the
denominator divides 10^12, which covers every float printed by this program
(values of the form meters/1000). -/
def pyFloatStr (q : ℚ) : String :=
  let a : ℚ := |q|
  let ip : ℕ := ⌊a⌋.toNat
  let ds : List ℕ := ((fracDigitList (a - (⌊a⌋ : ℚ)) 12).reverse.dropWhile (fun d => d == 0)).reverse
  (if q < 0 then "-" else "") ++ toString ip ++ "." ++
    (if ds.isEmpty then "0" else String.join (ds.map (fun d => String.mk [decDigit d])))

/-- Python str.capitalize(): first character uppercased, the rest lowercased
(line 178 of src/lambda_function.py). -/
def pyCapitalize (s : String) : String :=
  match s.data with
  | [] => ""
  | c :: cs => String.mk (c.toUpper :: cs.map Char.toLower)

/-- A Python number: an int or a float.  Floats carry their exact value as a
rational. -/
inductive PyNum where
  | int : ℤ → PyNum
  | float : ℚ → PyNum
deriving DecidableEq

/-- The exact value of a Python number. -/
def PyNum.toRat : PyNum → ℚ
  | .int n => (n : ℚ)
  | .float q => q

/-- Python str() of a number. -/
def PyNum.pyStr : PyNum → String
  | .int n => toString n
  | .float q => pyFloatStr q

/-- Python divmod: floor division and remainder.  On two ints the results are
ints, otherwise floats (the divisors in this program are the nonzero literals
3600 and 60). -/
def PyNum.divmod : PyNum → PyNum → PyNum × PyNum
  | .int a, .int b => (.int (Int.fdiv a b), .int (Int.fmod a b))
  | a, b =>
    let d : ℤ := ⌊a.toRat / b.toRat⌋
    (.float (d : ℚ), .float (a.toRat - b.toRat * (d : ℚ)))

/-- The Python exceptions that unchecked data access in the derivation
functions can raise.  None of these is caught by the except clauses of
lambda_handler. -/
inductive DataErr where
  | keyError : String → DataErr
  | typeError : DataErr
  | indexError : DataErr
  | attributeError : DataErr
  | valueError : DataErr
deriving DecidableEq

/-- The exceptions that can reach the except clauses of lambda_handler:
requests.exceptions.RequestException (which includes network errors, the
HTTPError of raise_for_status and the JSONDecodeError of response.json()),
botocore NoCredentialsError, boto3.exceptions.Boto3Error, and everything
else (the data-access exceptions above), which no clause catches. -/
inductive PyExc where
  | requestException : PyExc
  | noCredentialsError : PyExc
  | boto3Error : PyExc
  | dataError : DataErr → PyExc
deriving DecidableEq

/-- A parsed JSON value as produced by response.json(): None, bool, number
(int or float), string, list, or dict (insertion-ordered key/value list). -/
inductive JVal where
  | null : JVal
  | bool : Bool → JVal
  | num : PyNum → JVal
  | str : String → JVal
  | arr : List JVal → JVal
  | obj : List (String × JVal) → JVal

/-- Python subscription v[k] with a string key: KeyError when the key is
absent from a dict, TypeError when v is not a dict (lists, numbers, strings
and None do not support string keys). -/
def JVal.index : JVal → String → Except DataErr JVal
  | .obj fields, k =>
    match List.lookup k fields with
    | some v => Except.ok v
    | none => Except.error (.keyError k)
  | _, _ => Except.error .typeError

/-- Python subscription v[i] with an int position: IndexError when the list
is too short, TypeError otherwise (a dict indexed with an int key that it
does not hold would raise KeyError; no payload in this development indexes a
dict by position, so both failures are collapsed into TypeError). -/
def JVal.atIdx : JVal → ℕ → Except DataErr JVal
  | .arr l, i =>
    match l.get? i with
    | some v => Except.ok v
    | none => Except.error .indexError
  | _, _ => Except.error .typeError

/-- Read a JSON leaf as a number.  The Python source uses the fetched speed,
length and duration fields directly in arithmetic and comparisons, where a
non-numeric value raises TypeError at first use; the model raises it at
extraction, which is indistinguishable for the numeric payloads the claims
quantify over. -/
def JVal.asNum : JVal → Except DataErr PyNum
  | .num n => Except.ok n
  | _ => Except.error .typeError

/-- Python truthiness of a JSON value (the source tests a fetched value with
a bare if, line 167 of src/lambda_function.py). -/
def pyTruthy : JVal → Bool
  | .null => false
  | .bool b => b
  | .num n => !(decide (n.toRat = 0))
  | .str s => !s.isEmpty
  | .arr l => !l.isEmpty
  | .obj l => !l.isEmpty

/-- Result of calculate_congestion_level: a dict with the formatted
percentage and the category. -/
structure CongestionResult where
  congestion_level : String
  congestion_category : String
deriving DecidableEq

/-- Result of check_road_accidents. -/
structure AccidentResult where
  road_accidents : String
deriving DecidableEq

/-- Result of extract_route_details. -/
structure RouteDetails where
  distance_km : PyNum
  travel_time : String
  traffic_delay : String
  traffic_length : String
  departure_time : String
  arrival_time : String
  travel_mode : String
deriving DecidableEq

/-- The combined record built by lambda_handler (output_json, lines 87-92 of
src/lambda_function.py). -/
structure OutputRecord where
  email : String
  route_details : RouteDetails
  congestion_details : CongestionResult
  road_accident_details : AccidentResult
deriving DecidableEq

/-- The congestion percentage (lines 143-146 of src/lambda_function.py):
percentage speed reduction when the free-flow speed is positive, else 0.
The Python value is a float in the first branch and the int 0 in the second;
only its exact value is ever observed (by comparisons and by .2f formatting),
so the model keeps the rational value. -/
def congestionLevelOf (current_speed free_flow_speed : ℚ) : ℚ :=
  if free_flow_speed > 0 then
    ((free_flow_speed - current_speed) / free_flow_speed) * 100
  else 0

/-- The congestion category (lines 149-154 of src/lambda_function.py). -/
def categoryOf (congestion_level : ℚ) : String :=
  if congestion_level < 20 then "Low"
  else if 20 ≤ congestion_level ∧ congestion_level < 50 then "Moderate"
  else "High"

/-- Embedding of calculate_congestion_level (lines 137-159 of
src/lambda_function.py). -/
def calculate_congestion_level (data : JVal) : Except DataErr CongestionResult := do
  let current_speed ← (← (← (← data.index "traffic_flow").index "flowSegmentData").index "currentSpeed").asNum
  let free_flow_speed ← (← (← (← data.index "traffic_flow").index "flowSegmentData").index "freeFlowSpeed").asNum
  let congestion_level : ℚ := congestionLevelOf current_speed.toRat free_flow_speed.toRat
  let category : String := categoryOf congestion_level
  return { congestion_level := fmt2 congestion_level ++ "%", congestion_category := category }

/-- Embedding of check_road_accidents (lines 161-174 of
src/lambda_function.py). -/
def check_road_accidents (data : JVal) : Except DataErr AccidentResult := do
  let incidents ← (← (← data.index "traffic_incidents").index "tm").index "poi"
  let msg : String :=
    if pyTruthy incidents then "There are road accidents."
    else "There are no road accidents."
  return { road_accidents := msg }

/-- Valid tail after the 19 mandatory characters of a timestamp accepted by
the model of datetime.fromisoformat: nothing, or a UTC offset +HH:MM or
-HH:MM (which strftime then drops). -/
def isoTailOk : List Char → Bool
  | [] => true
  | '+' :: h1 :: h2 :: ':' :: m1 :: m2 :: [] =>
    h1.isDigit && h2.isDigit && m1.isDigit && m2.isDigit
  | '-' :: h1 :: h2 :: ':' :: m1 :: m2 :: [] =>
    h1.isDigit && h2.isDigit && m1.isDigit && m2.isDigit
  | _ => false

/-- Modelled from the spec: datetime.fromisoformat followed by
strftime(%Y-%m-%d %H:%M:%S) (lines 204-205 of src/lambda_function.py call
into the datetime library, whose code is not part of this repository).  Per
the spec, an ISO-8601 timestamp is parsed and reformatted with the T
separator replaced by a space and any timezone offset dropped; anything else
raises ValueError.  The model accepts the canonical form
YYYY-MM-DDTHH:MM:SS with an optional +HH:MM or -HH:MM offset (a space is
also accepted as separator, as by the library); calendar range checks of the
library are not modelled. -/
def pyIsoToStrf (s : String) : Except DataErr String :=
  match s.data with
  | y1 :: y2 :: y3 :: y4 :: '-' :: mo1 :: mo2 :: '-' :: d1 :: d2 :: sep ::
      h1 :: h2 :: ':' :: mi1 :: mi2 :: ':' :: s1 :: s2 :: rest =>
    if ([y1, y2, y3, y4, mo1, mo2, d1, d2, h1, h2, mi1, mi2, s1, s2].all Char.isDigit)
        && (sep == 'T' || sep == ' ') && isoTailOk rest then
      Except.ok (String.mk [y1, y2, y3, y4, '-', mo1, mo2, '-', d1, d2, ' ',
        h1, h2, ':', mi1, mi2, ':', s1, s2])
    else Except.error .valueError
  | _ => Except.error .valueError

/-- Embedding of extract_route_details (lines 176-215 of
src/lambda_function.py). -/
def extract_route_details (data : JVal) : Except DataErr RouteDetails := do
  let route_summary ← (← (← (← data.index "route_details").index "routes").atIdx 0).index "summary"
  let travel_mode_val ← (← (← (← (← (← data.index "route_details").index "routes").atIdx 0).index "sections").atIdx 0).index "travelMode"
  let travel_mode ← match travel_mode_val with
    | .str s => Except.ok (pyCapitalize s)
    | _ => Except.error .attributeError
  let lengthInMeters ← (← route_summary.index "lengthInMeters").asNum
  let distance_km : PyNum := .float (lengthInMeters.toRat / 1000)
  let travel_time_seconds ← (← route_summary.index "travelTimeInSeconds").asNum
  let traffic_delay_seconds ← (← route_summary.index "trafficDelayInSeconds").asNum
  let p1 := PyNum.divmod travel_time_seconds (.int 3600)
  let travel_time_hr := p1.1
  let p2 := PyNum.divmod p1.2 (.int 60)
  let travel_time_min := p2.1
  let travel_time_sec := p2.2
  let q1 := PyNum.divmod traffic_delay_seconds (.int 3600)
  let traffic_delay_hr := q1.1
  let q2 := PyNum.divmod q1.2 (.int 60)
  let traffic_delay_min := q2.1
  let traffic_delay_sec := q2.2
  let traffic_length_meters ← (← route_summary.index "trafficLengthInMeters").asNum
  let traffic_length : String :=
    if traffic_length_meters.toRat > 1000 then
      fmt2 (traffic_length_meters.toRat / 1000) ++ " km"
    else traffic_length_meters.pyStr ++ " meters"
  let departure_time_val ← route_summary.index "departureTime"
  let departure_time ← match departure_time_val with
    | .str s => pyIsoToStrf s
    | _ => Except.error .typeError
  let arrival_time_val ← route_summary.index "arrivalTime"
  let arrival_time ← match arrival_time_val with
    | .str s => pyIsoToStrf s
    | _ => Except.error .typeError
  return {
    distance_km := distance_km
    travel_time := travel_time_hr.pyStr ++ " hr " ++ travel_time_min.pyStr ++ " min " ++ travel_time_sec.pyStr ++ " sec"
    traffic_delay := traffic_delay_hr.pyStr ++ " hr " ++ traffic_delay_min.pyStr ++ " min " ++ traffic_delay_sec.pyStr ++ " sec"
    traffic_length := traffic_length
    departure_time := departure_time
    arrival_time := arrival_time
    travel_mode := travel_mode }

/-- The S3 bucket constant (line 32 of src/lambda_function.py). -/
def BUCKET_NAME : String := "traffic-monitoring-data-bucket"

/-- The SNS topic constant (line 33 of src/lambda_function.py). -/
def SNS_TOPIC_ARN : String := "arn:aws:sns:us-east-1:021891607807:traffic-alerts"

/-- A recorded SNS publish call: topic ARN, message, subject, and message
attributes as (name, DataType, StringValue) triples. -/
structure SnsPublish where
  topicArn : String
  message : String
  subject : String
  messageAttributes : List (String × String × String)
deriving DecidableEq

/-- Embedding of send_sns_alert (lines 218-247 of src/lambda_function.py) as
the publish call it issues.  The source reads the derived fields with
dict.get and an N/A default; the dicts built by the derivation functions
always hold every key, so the model reads the structure fields directly. -/
def send_sns_alert (from_location to_location email : String)
    (congestion_data : CongestionResult) (road_accident_data : AccidentResult)
    (route_details_data : RouteDetails) : SnsPublish :=
  { topicArn := SNS_TOPIC_ARN
    message :=
      "__Traffic Alert:__\n\n" ++
      "Route: " ++ from_location ++ " to " ++ to_location ++ "\n\n" ++
      "Congestion Level: " ++ congestion_data.congestion_level ++ " (" ++ congestion_data.congestion_category ++ ")\n\n" ++
      "Road Accidents: " ++ road_accident_data.road_accidents ++ "\n\n" ++
      "Route Details:\n" ++
      "Distance: " ++ route_details_data.distance_km.pyStr ++ " km\n" ++
      "Travel Time: " ++ route_details_data.travel_time ++ " \n" ++
      "Traffic Delay: " ++ route_details_data.traffic_delay ++ " \n" ++
      "Traffic Length: " ++ route_details_data.traffic_length ++ "\n" ++
      "Departure Time: " ++ route_details_data.departure_time ++ "\n" ++
      "Arrival Time: " ++ route_details_data.arrival_time ++ "\n" ++
      "Travel Mode: " ++ route_details_data.travel_mode
    subject := "Traffic Alert"
    messageAttributes := [("email", "String", email)] }

/-- Hexadecimal digit character (lowercase, as printed by json.dumps). -/
def hexDigit (n : ℕ) : Char :=
  if n < 10 then Char.ofNat (48 + n) else Char.ofNat (87 + n % 16)

/-- Four hexadecimal digits of a number below 65536. -/
def hex4 (n : ℕ) : String :=
  String.mk [hexDigit (n / 4096 % 16), hexDigit (n / 256 % 16),
    hexDigit (n / 16 % 16), hexDigit (n % 16)]

/-- Escaping of one character inside a JSON string literal as json.dumps does
with its defaults (ensure_ascii escapes every character outside 0x20-0x7e;
astral characters become a UTF-16 surrogate pair). -/
def jsonEscapeChar (c : Char) : String :=
  if c == '"' then "\\\""
  else if c == '\\' then "\\\\"
  else if c == '\n' then "\\n"
  else if c == '\t' then "\\t"
  else if c == '\r' then "\\r"
  else if c.toNat == 8 then "\\b"
  else if c.toNat == 12 then "\\f"
  else if c.toNat < 32 then "\\u" ++ hex4 c.toNat
  else if c.toNat < 127 then String.mk [c]
  else if c.toNat < 65536 then "\\u" ++ hex4 c.toNat
  else
    "\\u" ++ hex4 (55296 + (c.toNat - 65536) / 1024) ++
    "\\u" ++ hex4 (56320 + (c.toNat - 65536) % 1024)

/-- A JSON string literal for s, as json.dumps renders it. -/
def jstr (s : String) : String :=
  "\"" ++ String.join (s.data.map jsonEscapeChar) ++ "\""

/-- A JSON object from already-rendered members, with the default json.dumps
separators (a comma and a space between members, a colon and a space after
each key) and Python dict insertion order. -/
def jobj (fields : List (String × String)) : String :=
  "\x7b" ++ String.intercalate ", " (fields.map (fun f => jstr f.1 ++ ": " ++ f.2)) ++ "\x7d"

/-- json.dumps of the route_details dict. -/
def dumpsRouteDetails (r : RouteDetails) : String :=
  jobj [("distance_km", r.distance_km.pyStr),
    ("travel_time", jstr r.travel_time),
    ("traffic_delay", jstr r.traffic_delay),
    ("traffic_length", jstr r.traffic_length),
    ("departure_time", jstr r.departure_time),
    ("arrival_time", jstr r.arrival_time),
    ("travel_mode", jstr r.travel_mode)]

/-- json.dumps of the congestion dict. -/
def dumpsCongestion (c : CongestionResult) : String :=
  jobj [("congestion_level", jstr c.congestion_level),
    ("congestion_category", jstr c.congestion_category)]

/-- json.dumps of the road-accident dict. -/
def dumpsAccident (a : AccidentResult) : String :=
  jobj [("road_accidents", jstr a.road_accidents)]

/-- json.dumps of output_json (line 99 of src/lambda_function.py). -/
def dumpsOutput (r : OutputRecord) : String :=
  jobj [("email", jstr r.email),
    ("route_details", dumpsRouteDetails r.route_details),
    ("congestion_details", dumpsCongestion r.congestion_details),
    ("road_accident_details", dumpsAccident r.road_accident_details)]

/-- The serialized record: json.dumps(output_json).encode(utf-8), as a list
of byte values. -/
def serializeOutput (r : OutputRecord) : List ℕ :=
  (dumpsOutput r).toUTF8.toList.map (fun b => b.toNat)

/-- The byte of the modelled Fernet keystream at position i (the key is
cycled; an empty key contributes 0). -/
def keyStream (key : List ℕ) (i : ℕ) : ℕ :=
  (key.getD (i % key.length) 0) % 256

/-- Modelled from the spec: the Fernet encrypt operation of the cryptography
library (line 100 of src/lambda_function.py) is not part of this repository;
per the spec it is a symmetric cipher whose only relevant property is the
byte-for-byte round trip with the same one-time key.  It is modelled as a
byte-stream cipher adding a key-derived stream modulo 256. -/
def fernetEncryptFrom (key : List ℕ) : ℕ → List ℕ → List ℕ
  | _, [] => []
  | i, b :: bs => (b + keyStream key i) % 256 :: fernetEncryptFrom key (i + 1) bs

/-- Modelled from the spec: the matching Fernet decrypt operation (library
code absent from the repository), subtracting the keystream modulo 256. -/
def fernetDecryptFrom (key : List ℕ) : ℕ → List ℕ → List ℕ
  | _, [] => []
  | i, b :: bs => (b + (256 - keyStream key i)) % 256 :: fernetDecryptFrom key (i + 1) bs

/-- cipher_suite.encrypt(json_data) with the one-time key. -/
def fernetEncrypt (key data : List ℕ) : List ℕ := fernetEncryptFrom key 0 data

/-- cipher_suite.decrypt of a token with the same key. -/
def fernetDecrypt (key token : List ℕ) : List ℕ := fernetDecryptFrom key 0 token

/-- The incoming event: the handler reads the from, to and email attributes
(lines 57-59 of src/lambda_function.py; the model covers events carrying all
three, the only shape the spec and claims exercise). -/
structure Event where
  from_location : String
  to_location : String
  email : String

/-- Outcome of the HTTP POST to the traffic endpoint: a network failure in
requests.post itself, or a response with an HTTP status code and an optional
parsed JSON body (none models a body response.json() cannot parse). -/
inductive FetchOutcome where
  | netError : FetchOutcome
  | response : ℕ → Option JVal → FetchOutcome

/-- The environment of one invocation: outcomes of the external calls
(injected, exactly like mocks in a test), the generated one-time Fernet key
and the timestamp used in the S3 object key. -/
structure HandlerEnv where
  fetch : FetchOutcome
  s3Outcome : Option PyExc
  snsOutcome : Option PyExc
  fernetKey : List ℕ
  nowStamp : String

/-- An externally visible side effect of the invocation: an object written
to S3, or a message published to SNS. -/
inductive Effect where
  | s3Put : String → String → List ℕ → Effect
  | snsPublish : SnsPublish → Effect
deriving DecidableEq

/-- What lambda_handler hands back to its caller: the structured response
dict, or an exception no except clause caught. -/
inductive HandlerResult where
  | response : ℕ → String → HandlerResult
  | uncaught : PyExc → HandlerResult
deriving DecidableEq

/-- response.raise_for_status() (line 74 of src/lambda_function.py): raises
HTTPError, a RequestException, exactly for status codes 400-599. -/
def raise_for_status (status : ℕ) : Except Unit Unit :=
  if 400 ≤ status ∧ status < 600 then Except.error () else Except.ok ()

/-- response.json() (line 75): the parsed body, or JSONDecodeError (a
RequestException) when the body does not parse. -/
def response_json (body : Option JVal) : Except Unit JVal :=
  match body with
  | some v => Except.ok v
  | none => Except.error ()

/-- The upstream fetch (lines 71-75 of src/lambda_function.py): the POST
itself, raise_for_status, then JSON parsing.  Every failure is a
RequestException, so the error type is Unit standing for that class. -/
def fetchStep (env : HandlerEnv) : Except Unit JVal :=
  match env.fetch with
  | .netError => Except.error ()
  | .response st body => do
    raise_for_status st
    response_json body

/-- The body of the try block of lambda_handler (lines 50-116 of
src/lambda_function.py): fetch, the three derivations, encryption, the S3
write, the SNS publish.  Returns the final exception state together with the
externally visible effects that happened before any failure. -/
def runPipeline (env : HandlerEnv) (event : Event) : Except PyExc Unit × List Effect :=
  match fetchStep env with
  | .error _ => (Except.error .requestException, [])
  | .ok traffic_data =>
    match calculate_congestion_level traffic_data with
    | .error e => (Except.error (.dataError e), [])
    | .ok congestion_data =>
      match check_road_accidents traffic_data with
      | .error e => (Except.error (.dataError e), [])
      | .ok road_accident_data =>
        match extract_route_details traffic_data with
        | .error e => (Except.error (.dataError e), [])
        | .ok route_details_data =>
          let output_json : OutputRecord :=
            { email := event.email
              route_details := route_details_data
              congestion_details := congestion_data
              road_accident_details := road_accident_data }
          let encrypted_data := fernetEncrypt env.fernetKey (serializeOutput output_json)
          match env.s3Outcome with
          | some e => (Except.error e, [])
          | none =>
            let s3Effect := Effect.s3Put BUCKET_NAME ("traffic_data_" ++ env.nowStamp ++ ".json") encrypted_data
            match env.snsOutcome with
            | some e => (Except.error e, [s3Effect])
            | none =>
              (Except.ok (), [s3Effect, Effect.snsPublish
                (send_sns_alert event.from_location event.to_location event.email
                  congestion_data road_accident_data route_details_data)])

/-- The except clauses of lambda_handler (lines 118-135 of
src/lambda_function.py), tried in source order; an exception matching none
of them propagates to the caller. -/
def handleExc : PyExc → HandlerResult
  | .requestException => .response 500 (jstr "Error fetching traffic data")
  | .noCredentialsError => .response 500 (jstr "Error with AWS credentials")
  | .boto3Error => .response 500 (jstr "Error with AWS services")
  | .dataError e => .uncaught (.dataError e)

/-- Embedding of lambda_handler (lines 49-135 of src/lambda_function.py):
the try body, then either the success response or the matching except
clause, paired with the effects that took place. -/
def lambda_handler (env : HandlerEnv) (event : Event) : HandlerResult × List Effect :=
  match runPipeline env event with
  | (.ok _, effs) => (.response 200 (jstr "Traffic data processed and alerts sent!"), effs)
  | (.error e, effs) => (handleExc e, effs)

/-- A payload holding only the traffic_flow section, with the two speeds as
leaves (the shape calculate_congestion_level reads). -/
def flowPayload (cur ffs : PyNum) : JVal :=
  .obj [("traffic_flow", .obj [("flowSegmentData", .obj [
    ("currentSpeed", .num cur), ("freeFlowSpeed", .num ffs)])])]

/-- A payload holding only the traffic_incidents section, with the given
points of interest (the shape check_road_accidents reads). -/
def incidentsPayload (pois : List JVal) : JVal :=
  .obj [("traffic_incidents", .obj [("tm", .obj [("poi", .arr pois)])])]

/-- A payload holding only the route_details section, with the given summary
leaves and travel mode (the shape extract_route_details reads). -/
def routeDetailsPayload (lm tt td tl : PyNum) (dep arr mode : String) : JVal :=
  .obj [("route_details", .obj [("routes", .arr [.obj [
    ("summary", .obj [
      ("lengthInMeters", .num lm),
      ("travelTimeInSeconds", .num tt),
      ("trafficDelayInSeconds", .num td),
      ("trafficLengthInMeters", .num tl),
      ("departureTime", .str dep),
      ("arrivalTime", .str arr)]),
    ("sections", .arr [.obj [("travelMode", .str mode)]])]])])]

/-- The complete well-formed upstream payload of the end-to-end scenario of
the spec (currentSpeed 40, freeFlowSpeed 100, no incidents, a 1200 m route
of 600 s with no delay). -/
def samplePayload : JVal :=
  .obj [
    ("traffic_flow", .obj [("flowSegmentData", .obj [
      ("currentSpeed", .num (.int 40)), ("freeFlowSpeed", .num (.int 100))])]),
    ("traffic_incidents", .obj [("tm", .obj [("poi", .arr [])])]),
    ("route_details", .obj [("routes", .arr [.obj [
      ("summary", .obj [
        ("lengthInMeters", .num (.int 1200)),
        ("travelTimeInSeconds", .num (.int 600)),
        ("trafficDelayInSeconds", .num (.int 0)),
        ("trafficLengthInMeters", .num (.int 1200)),
        ("departureTime", .str "2024-01-01T08:00:00"),
        ("arrivalTime", .str "2024-01-01T08:10:00")]),
      ("sections", .arr [.obj [("travelMode", .str "car")]])]])])]

/-- The congestion result derived from samplePayload. -/
def sampleCongestion : CongestionResult :=
  { congestion_level := "60.00%", congestion_category := "High" }

/-- The accident result derived from samplePayload. -/
def sampleAccident : AccidentResult :=
  { road_accidents := "There are no road accidents." }

/-- The route details derived from samplePayload. -/
def sampleRoute : RouteDetails :=
  { distance_km := .float ((((1200 : ℤ)) : ℚ) / 1000)
    travel_time := "0 hr 10 min 0 sec"
    traffic_delay := "0 hr 0 min 0 sec"
    traffic_length := "1.20 km"
    departure_time := "2024-01-01 08:00:00"
    arrival_time := "2024-01-01 08:10:00"
    travel_mode := "Car" }

/-- The event of the end-to-end scenario of the spec. -/
def sampleEvent : Event :=
  { from_location := "A", to_location := "B", email := "x@example.com" }

/-- Modelled from the spec: the fixed notification template of §6, rendered
with the derived fields (used to compare the message the code builds against
the layout the spec prescribes). -/
def specNotificationMessage (from_location to_location : String)
    (congestion_data : CongestionResult) (road_accident_data : AccidentResult)
    (route_details_data : RouteDetails) : String :=
  "__Traffic Alert:__\n\n" ++
  "Route: " ++ from_location ++ " to " ++ to_location ++ "\n\n" ++
  "Congestion Level: " ++ congestion_data.congestion_level ++ " (" ++ congestion_data.congestion_category ++ ")\n\n" ++
  "Road Accidents: " ++ road_accident_data.road_accidents ++ "\n\n" ++
  "Route Details:\n" ++
  "Distance: " ++ route_details_data.distance_km.pyStr ++ " km\n" ++
  "Travel Time: " ++ route_details_data.travel_time ++ "\n" ++
  "Traffic Delay: " ++ route_details_data.traffic_delay ++ "\n" ++
  "Traffic Length: " ++ route_details_data.traffic_length ++ "\n" ++
  "Departure Time: " ++ route_details_data.departure_time ++ "\n" ++
  "Arrival Time: " ++ route_details_data.arrival_time ++ "\n" ++
  "Travel Mode: " ++ route_details_data.travel_mode

/-- The §6 template amended as the code forces: identical except for one
trailing space before the newline of the Travel Time line and of the Traffic
Delay line. -/
def specNotificationMessageAmended (from_location to_location : String)
    (congestion_data : CongestionResult) (road_accident_data : AccidentResult)
    (route_details_data : RouteDetails) : String :=
  "__Traffic Alert:__\n\n" ++
  "Route: " ++ from_location ++ " to " ++ to_location ++ "\n\n" ++
  "Congestion Level: " ++ congestion_data.congestion_level ++ " (" ++ congestion_data.congestion_category ++ ")\n\n" ++
  "Road Accidents: " ++ road_accident_data.road_accidents ++ "\n\n" ++
  "Route Details:\n" ++
  "Distance: " ++ route_details_data.distance_km.pyStr ++ " km\n" ++
  "Travel Time: " ++ route_details_data.travel_time ++ " \n" ++
  "Traffic Delay: " ++ route_details_data.traffic_delay ++ " \n" ++
  "Traffic Length: " ++ route_details_data.traffic_length ++ "\n" ++
  "Departure Time: " ++ route_details_data.departure_time ++ "\n" ++
  "Arrival Time: " ++ route_details_data.arrival_time ++ "\n" ++
  "Travel Mode: " ++ route_details_data.travel_mode

/-- Printing a cast natural number as an integer prints the number itself. -/
theorem toString_intCast (n : ℕ) : toString ((n : ℤ)) = toString n := rfl

/-- Floor division of cast naturals is the cast of natural division. -/
theorem natCast_fdiv (m n : ℕ) : ((m : ℤ)).fdiv ((n : ℤ)) = ((m / n : ℕ) : ℤ) :=
  (Int.ofNat_fdiv m n).symm

/-- Floor remainder of cast naturals is the cast of the natural remainder. -/
theorem natCast_fmod (m n : ℕ) : ((m : ℤ)).fmod ((n : ℤ)) = ((m % n : ℕ) : ℤ) :=
  (Int.ofNat_fmod m n).symm

/-- Evaluation rule for fmt2 once the rounding of 100 q is known. -/
theorem fmt2_eval {q : ℚ} {n : ℤ} (h : roundHalfEven (q * 100) = n) :
    fmt2 q = (if n < 0 then "-" else "") ++ toString (n.natAbs / 100) ++ "." ++
      String.mk [decDigit (n.natAbs / 10 % 10), decDigit (n.natAbs % 10)] := by
  simp only [fmt2, h]

/-- decDigit yields a digit character below 10. -/
theorem decDigit_isDigit {k : ℕ} (h : k < 10) : (decDigit k).isDigit := by
  interval_cases k <;> decide

/-- A bind on an error propagates the error. -/
theorem exceptBind_err {ε α β : Type} (e : ε) (f : α → Except ε β) :
    (bind (Except.error e) f : Except ε β) = Except.error e := rfl

/-- The congestion percentage of the sample scenario is 60. -/
theorem congestion_sample_val : congestionLevelOf (((40 : ℤ)) : ℚ) (((100 : ℤ)) : ℚ) = 60 := by
  norm_num [congestionLevelOf]

/-- The sample congestion percentage formats as 60.00. -/
theorem fmt2_sample_val : fmt2 (congestionLevelOf (((40 : ℤ)) : ℚ) (((100 : ℤ)) : ℚ)) = "60.00" := by
  rw [fmt2_eval (show roundHalfEven (congestionLevelOf (((40 : ℤ)) : ℚ) (((100 : ℤ)) : ℚ) * 100) = 6000 by
    rw [congestion_sample_val]; norm_num [roundHalfEven])]
  rfl

/-- The sample congestion percentage classifies as High. -/
theorem categoryOf_sample_val : categoryOf (congestionLevelOf (((40 : ℤ)) : ℚ) (((100 : ℤ)) : ℚ)) = "High" := by
  rw [congestion_sample_val]; norm_num [categoryOf]

/-- calculate_congestion_level on the sample payload. -/
theorem sample_congestion_eq : calculate_congestion_level samplePayload = Except.ok sampleCongestion := by
  have h : calculate_congestion_level samplePayload =
      Except.ok ⟨fmt2 (congestionLevelOf (((40 : ℤ)) : ℚ) (((100 : ℤ)) : ℚ)) ++ "%",
        categoryOf (congestionLevelOf (((40 : ℤ)) : ℚ) (((100 : ℤ)) : ℚ))⟩ := rfl
  rw [h, fmt2_sample_val, categoryOf_sample_val]
  rfl

/-- check_road_accidents on the sample payload. -/
theorem sample_accident_eq : check_road_accidents samplePayload = Except.ok sampleAccident := rfl

/-- 1200 meters over 1000 formats as 1.20. -/
theorem fmt2_km_sample : fmt2 ((((1200 : ℤ)) : ℚ) / 1000) = "1.20" := by
  rw [fmt2_eval (show roundHalfEven ((((1200 : ℤ)) : ℚ) / 1000 * 100) = 120 by
    norm_num [roundHalfEven])]
  rfl

/-- extract_route_details on the sample payload. -/
theorem sample_route_eq : extract_route_details samplePayload = Except.ok sampleRoute := by
  have h : extract_route_details samplePayload = Except.ok
      { distance_km := .float ((((1200 : ℤ)) : ℚ) / 1000)
        travel_time := "0 hr 10 min 0 sec"
        traffic_delay := "0 hr 0 min 0 sec"
        traffic_length := fmt2 ((((1200 : ℤ)) : ℚ) / 1000) ++ " km"
        departure_time := "2024-01-01 08:00:00"
        arrival_time := "2024-01-01 08:10:00"
        travel_mode := "Car" } := rfl
  rw [h, fmt2_km_sample]
  rfl

/-- C1 (counterexample): the claim says every failure raised anywhere in the
pipeline is turned into a structured 500 response and no exception ever
propagates uncaught.  On a successful fetch whose JSON body lacks the
required traffic_flow field, the KeyError raised inside the try block
matches none of the three except clauses and lambda_handler hands an
uncaught exception to the caller instead of a response. -/
theorem c1_uncaught_counterexample :
    (lambda_handler
      { fetch := .response 200 (some (.obj []))
        s3Outcome := none
        snsOutcome := none
        fernetKey := []
        nowStamp := "20240101000000" } sampleEvent).1
      = .uncaught (.dataError (.keyError "traffic_flow")) := rfl

/-- C1 (amended): failures caught by the three except clauses map to the
fixed responses, and success maps to 200: an upstream-fetch failure (network
error, HTTP 4xx/5xx status, malformed JSON) yields 500 with body
"Error fetching traffic data"; a NoCredentialsError raised by an AWS call
yields 500 with "Error with AWS credentials"; a Boto3Error raised by an AWS
call yields 500 with "Error with AWS services"; a fully successful run
yields 200 with "Traffic data processed and alerts sent!".  However a
derivation failure (missing required field, wrong shape) raises an
exception that propagates uncaught instead of producing a response. -/
theorem c1_error_taxonomy_amended (env : HandlerEnv) (ev : Event) :
    (fetchStep env = Except.error () →
      (lambda_handler env ev).1 = .response 500 (jstr "Error fetching traffic data"))
    ∧ (∀ data e, fetchStep env = Except.ok data →
        calculate_congestion_level data = Except.error e →
        (lambda_handler env ev).1 = .uncaught (.dataError e))
    ∧ (∀ data cg e, fetchStep env = Except.ok data →
        calculate_congestion_level data = Except.ok cg →
        check_road_accidents data = Except.error e →
        (lambda_handler env ev).1 = .uncaught (.dataError e))
    ∧ (∀ data cg acc e, fetchStep env = Except.ok data →
        calculate_congestion_level data = Except.ok cg →
        check_road_accidents data = Except.ok acc →
        extract_route_details data = Except.error e →
        (lambda_handler env ev).1 = .uncaught (.dataError e))
    ∧ (∀ data cg acc rd, fetchStep env = Except.ok data →
        calculate_congestion_level data = Except.ok cg →
        check_road_accidents data = Except.ok acc →
        extract_route_details data = Except.ok rd →
        env.s3Outcome = some PyExc.noCredentialsError →
        (lambda_handler env ev).1 = .response 500 (jstr "Error with AWS credentials"))
    ∧ (∀ data cg acc rd, fetchStep env = Except.ok data →
        calculate_congestion_level data = Except.ok cg →
        check_road_accidents data = Except.ok acc →
        extract_route_details data = Except.ok rd →
        env.s3Outcome = some PyExc.boto3Error →
        (lambda_handler env ev).1 = .response 500 (jstr "Error with AWS services"))
    ∧ (∀ data cg acc rd, fetchStep env = Except.ok data →
        calculate_congestion_level data = Except.ok cg →
        check_road_accidents data = Except.ok acc →
        extract_route_details data = Except.ok rd →
        env.s3Outcome = none → env.snsOutcome = some PyExc.noCredentialsError →
        (lambda_handler env ev).1 = .response 500 (jstr "Error with AWS credentials"))
    ∧ (∀ data cg acc rd, fetchStep env = Except.ok data →
        calculate_congestion_level data = Except.ok cg →
        check_road_accidents data = Except.ok acc →
        extract_route_details data = Except.ok rd →
        env.s3Outcome = none → env.snsOutcome = some PyExc.boto3Error →
        (lambda_handler env ev).1 = .response 500 (jstr "Error with AWS services"))
    ∧ (∀ data cg acc rd, fetchStep env = Except.ok data →
        calculate_congestion_level data = Except.ok cg →
        check_road_accidents data = Except.ok acc →
        extract_route_details data = Except.ok rd →
        env.s3Outcome = none → env.snsOutcome = none →
        (lambda_handler env ev).1 = .response 200 (jstr "Traffic data processed and alerts sent!")) := by
  refine ⟨?_, ?_, ?_, ?_, ?_, ?_, ?_, ?_, ?_⟩
  · intro h; simp only [lambda_handler, runPipeline, h, handleExc]
  · intro data e h1 h2; simp only [lambda_handler, runPipeline, h1, h2, handleExc]
  · intro data cg e h1 h2 h3; simp only [lambda_handler, runPipeline, h1, h2, h3, handleExc]
  · intro data cg acc e h1 h2 h3 h4
    simp only [lambda_handler, runPipeline, h1, h2, h3, h4, handleExc]
  · intro data cg acc rd h1 h2 h3 h4 h5
    simp only [lambda_handler, runPipeline, h1, h2, h3, h4, h5, handleExc]
  · intro data cg acc rd h1 h2 h3 h4 h5
    simp only [lambda_handler, runPipeline, h1, h2, h3, h4, h5, handleExc]
  · intro data cg acc rd h1 h2 h3 h4 h5 h6
    simp only [lambda_handler, runPipeline, h1, h2, h3, h4, h5, h6, handleExc]
  · intro data cg acc rd h1 h2 h3 h4 h5 h6
    simp only [lambda_handler, runPipeline, h1, h2, h3, h4, h5, h6, handleExc]
  · intro data cg acc rd h1 h2 h3 h4 h5 h6
    simp only [lambda_handler, runPipeline, h1, h2, h3, h4, h5, h6, handleExc]

/-- C1 (witness): the amended taxonomy instantiated on concrete
environments, one per bucket. -/
theorem c1_error_taxonomy_amended_witness :
    (lambda_handler
      { fetch := .netError
        s3Outcome := none
        snsOutcome := none
        fernetKey := []
        nowStamp := "x" } sampleEvent).1
      = .response 500 (jstr "Error fetching traffic data")
    ∧ (lambda_handler
      { fetch := .response 200 (some samplePayload)
        s3Outcome := some PyExc.noCredentialsError
        snsOutcome := none
        fernetKey := []
        nowStamp := "x" } sampleEvent).1
      = .response 500 (jstr "Error with AWS credentials")
    ∧ (lambda_handler
      { fetch := .response 200 (some samplePayload)
        s3Outcome := none
        snsOutcome := some PyExc.boto3Error
        fernetKey := []
        nowStamp := "x" } sampleEvent).1
      = .response 500 (jstr "Error with AWS services")
    ∧ (lambda_handler
      { fetch := .response 200 (some samplePayload)
        s3Outcome := none
        snsOutcome := none
        fernetKey := []
        nowStamp := "x" } sampleEvent).1
      = .response 200 (jstr "Traffic data processed and alerts sent!") :=
  ⟨(c1_error_taxonomy_amended _ sampleEvent).1 rfl,
    (c1_error_taxonomy_amended _ sampleEvent).2.2.2.2.1 samplePayload sampleCongestion
      sampleAccident sampleRoute rfl sample_congestion_eq sample_accident_eq sample_route_eq rfl,
    (c1_error_taxonomy_amended _ sampleEvent).2.2.2.2.2.2.2.1 samplePayload sampleCongestion
      sampleAccident sampleRoute rfl sample_congestion_eq sample_accident_eq sample_route_eq rfl rfl,
    (c1_error_taxonomy_amended _ sampleEvent).2.2.2.2.2.2.2.2 samplePayload sampleCongestion
      sampleAccident sampleRoute rfl sample_congestion_eq sample_accident_eq sample_route_eq rfl rfl⟩

/-- C2: for every pair of input speeds, the congestion level is the
percentage reduction (freeFlowSpeed - currentSpeed) / freeFlowSpeed * 100
when freeFlowSpeed is positive and exactly 0 when it is 0 (classifying Low
in that case); the category is Low below 20, Moderate on [20, 50), High at
and above 50; a negative percentage is not clamped and classifies Low; and
calculate_congestion_level renders the percentage via fmt2 (exactly two
decimal digits) followed by a percent sign. -/
theorem c2_congestion_formula_and_rendering (cur ffs : PyNum) (x : ℚ) :
    (0 < ffs.toRat →
      congestionLevelOf cur.toRat ffs.toRat = (ffs.toRat - cur.toRat) / ffs.toRat * 100)
    ∧ (ffs.toRat = 0 →
      congestionLevelOf cur.toRat ffs.toRat = 0 ∧
      categoryOf (congestionLevelOf cur.toRat ffs.toRat) = "Low")
    ∧ (x < 20 → categoryOf x = "Low")
    ∧ (20 ≤ x → x < 50 → categoryOf x = "Moderate")
    ∧ (50 ≤ x → categoryOf x = "High")
    ∧ (x < 0 → categoryOf x = "Low")
    ∧ (calculate_congestion_level (flowPayload cur ffs) =
        Except.ok ⟨fmt2 (congestionLevelOf cur.toRat ffs.toRat) ++ "%",
          categoryOf (congestionLevelOf cur.toRat ffs.toRat)⟩)
    ∧ (∃ pre d1 d2, fmt2 x = pre ++ "." ++ String.mk [d1, d2] ∧ d1.isDigit ∧ d2.isDigit) := by
  refine ⟨?_, ?_, ?_, ?_, ?_, ?_, rfl, ?_⟩
  · intro h; unfold congestionLevelOf; rw [if_pos h]
  · intro h
    have h0 : congestionLevelOf cur.toRat ffs.toRat = 0 := by
      unfold congestionLevelOf; rw [h]; norm_num
    exact ⟨h0, by rw [h0]; norm_num [categoryOf]⟩
  · intro h; unfold categoryOf; rw [if_pos h]
  · intro h1 h2; unfold categoryOf
    rw [if_neg (by linarith), if_pos ⟨h1, h2⟩]
  · intro h; unfold categoryOf
    rw [if_neg (by linarith), if_neg (by rintro ⟨h1, h2⟩; linarith)]
  · intro h; unfold categoryOf; rw [if_pos (by linarith)]
  · refine ⟨(if roundHalfEven (x * 100) < 0 then "-" else "") ++
      toString ((roundHalfEven (x * 100)).natAbs / 100),
      decDigit ((roundHalfEven (x * 100)).natAbs / 10 % 10),
      decDigit ((roundHalfEven (x * 100)).natAbs % 10), ?_, ?_, ?_⟩
    · simp only [fmt2]
    · exact decDigit_isDigit (by omega)
    · exact decDigit_isDigit (by omega)

/-- C2 (witness): at currentSpeed 40, freeFlowSpeed 100 the formula gives
60, the category is High, and the rendered result is 60.00% High. -/
theorem c2_congestion_formula_and_rendering_witness :
    0 < (PyNum.int 100).toRat
    ∧ congestionLevelOf (PyNum.int 40).toRat (PyNum.int 100).toRat
        = ((PyNum.int 100).toRat - (PyNum.int 40).toRat) / (PyNum.int 100).toRat * 100
    ∧ (50 : ℚ) ≤ 60 ∧ categoryOf 60 = "High"
    ∧ calculate_congestion_level (flowPayload (.int 40) (.int 100)) =
        Except.ok ⟨"60.00%", "High"⟩ := by
  have h := c2_congestion_formula_and_rendering (.int 40) (.int 100) 60
  have h100 : (0 : ℚ) < (PyNum.int 100).toRat := by norm_num [PyNum.toRat]
  refine ⟨h100, h.1 h100, by norm_num, h.2.2.2.2.1 (by norm_num), ?_⟩
  have e40 : (PyNum.int 40).toRat = (((40 : ℤ)) : ℚ) := rfl
  have e100 : (PyNum.int 100).toRat = (((100 : ℤ)) : ℚ) := rfl
  rw [h.2.2.2.2.2.2.1, e40, e100, fmt2_sample_val, categoryOf_sample_val]
  rfl

/-- C3: for freeFlowSpeed above currentSpeed at least 0, the congestion
percentage lies in the half-open interval (0, 100], and the category matches
the thresholds exactly at the boundaries: 19.99 is Low, 20.00 is Moderate,
49.99 is Moderate, 50.00 is High. -/
theorem c3_percentage_range_and_boundaries (c f : ℚ) (h0 : 0 ≤ c) (hlt : c < f) :
    (0 < congestionLevelOf c f ∧ congestionLevelOf c f ≤ 100)
    ∧ categoryOf (1999/100) = "Low"
    ∧ categoryOf 20 = "Moderate"
    ∧ categoryOf (4999/100) = "Moderate"
    ∧ categoryOf 50 = "High" := by
  have hf : 0 < f := lt_of_le_of_lt h0 hlt
  refine ⟨?_, by norm_num [categoryOf], by norm_num [categoryOf],
    by norm_num [categoryOf], by norm_num [categoryOf]⟩
  unfold congestionLevelOf
  rw [if_pos hf]
  constructor
  · exact mul_pos (div_pos (by linarith) hf) (by norm_num)
  · have h2 : (f - c) / f ≤ 1 := by rw [div_le_one hf]; linarith
    nlinarith [h2]

/-- C3 (witness): the range property instantiated at speeds 40 and 100. -/
theorem c3_percentage_range_and_boundaries_witness :
    ((0 : ℚ) ≤ 40 ∧ (40 : ℚ) < 100)
    ∧ 0 < congestionLevelOf 40 100 ∧ congestionLevelOf 40 100 ≤ 100 := by
  have h := c3_percentage_range_and_boundaries 40 100 (by norm_num) (by norm_num)
  exact ⟨⟨by norm_num, by norm_num⟩, h.1.1, h.1.2⟩

/-- C4: persistence and notification happen only after the fetch and all
three derivation steps succeed — a non-empty effect list implies every
derivation returned a result — and an upstream fetch answering HTTP 503
yields the fetch-error response with zero storage writes and zero
notification publishes. -/
theorem c4_persistence_gated_on_derivations (env : HandlerEnv) (ev : Event) :
    ((lambda_handler env ev).2 ≠ [] →
      ∃ data cg acc rd, fetchStep env = Except.ok data ∧
        calculate_congestion_level data = Except.ok cg ∧
        check_road_accidents data = Except.ok acc ∧
        extract_route_details data = Except.ok rd)
    ∧ (∀ body, env.fetch = .response 503 body →
        lambda_handler env ev = (.response 500 (jstr "Error fetching traffic data"), [])) := by
  constructor
  · intro hne
    cases hf : fetchStep env with
    | error e =>
      exfalso; apply hne; simp only [lambda_handler, runPipeline, hf]
    | ok data =>
      cases hc : calculate_congestion_level data with
      | error e =>
        exfalso; apply hne; simp only [lambda_handler, runPipeline, hf, hc]
      | ok cg =>
        cases ha : check_road_accidents data with
        | error e =>
          exfalso; apply hne; simp only [lambda_handler, runPipeline, hf, hc, ha]
        | ok acc =>
          cases hr : extract_route_details data with
          | error e =>
            exfalso; apply hne; simp only [lambda_handler, runPipeline, hf, hc, ha, hr]
          | ok rd => exact ⟨data, cg, acc, rd, rfl, hc, ha, hr⟩
  · intro body h503
    have hf : fetchStep env = Except.error () := by
      simp only [fetchStep, h503, raise_for_status]
      norm_num [exceptBind_err]
    simp only [lambda_handler, runPipeline, hf, handleExc]

/-- C4 (witness): a 503 fetch on a concrete environment produces the
fetch-error response with no effects, and a successful concrete run has a
non-empty effect list, hence all derivations succeeded. -/
theorem c4_persistence_gated_on_derivations_witness :
    lambda_handler
      { fetch := .response 503 none
        s3Outcome := none
        snsOutcome := none
        fernetKey := []
        nowStamp := "x" } sampleEvent
      = (.response 500 (jstr "Error fetching traffic data"), [])
    ∧ ∃ data cg acc rd,
        fetchStep
          { fetch := .response 200 (some samplePayload)
            s3Outcome := none
            snsOutcome := none
            fernetKey := []
            nowStamp := "x" } = Except.ok data
        ∧ calculate_congestion_level data = Except.ok cg
        ∧ check_road_accidents data = Except.ok acc
        ∧ extract_route_details data = Except.ok rd := by
  refine ⟨(c4_persistence_gated_on_derivations _ sampleEvent).2 none rfl,
    (c4_persistence_gated_on_derivations
      { fetch := .response 200 (some samplePayload)
        s3Outcome := none
        snsOutcome := none
        fernetKey := []
        nowStamp := "x" } sampleEvent).1 ?_⟩
  intro h
  exact nomatch h

/-- C5: extract_route_details renders the traffic length as the value
divided by 1000 with exactly two decimals and the km suffix when the meters
exceed 1000, and as the raw integer with the meters suffix otherwise; 1500
renders as 1.50 km, 800 as 800 meters, and exactly 1000 takes the meters
branch. -/
theorem c5_traffic_length_rendering (m : ℤ) :
    ((extract_route_details (routeDetailsPayload (.int 1000) (.int 0) (.int 0) (.int m)
        "2024-01-01T08:00:00" "2024-01-01T08:10:00" "car")).map RouteDetails.traffic_length
      = Except.ok (if 1000 < m then fmt2 (((m : ℚ)) / 1000) ++ " km" else toString m ++ " meters"))
    ∧ ((extract_route_details (routeDetailsPayload (.int 1000) (.int 0) (.int 0) (.int 1500)
        "2024-01-01T08:00:00" "2024-01-01T08:10:00" "car")).map RouteDetails.traffic_length
      = Except.ok "1.50 km")
    ∧ ((extract_route_details (routeDetailsPayload (.int 1000) (.int 0) (.int 0) (.int 800)
        "2024-01-01T08:00:00" "2024-01-01T08:10:00" "car")).map RouteDetails.traffic_length
      = Except.ok "800 meters")
    ∧ ((extract_route_details (routeDetailsPayload (.int 1000) (.int 0) (.int 0) (.int 1000)
        "2024-01-01T08:00:00" "2024-01-01T08:10:00" "car")).map RouteDetails.traffic_length
      = Except.ok "1000 meters") := by
  have key : ∀ k : ℤ, (extract_route_details (routeDetailsPayload (.int 1000) (.int 0) (.int 0) (.int k)
        "2024-01-01T08:00:00" "2024-01-01T08:10:00" "car")).map RouteDetails.traffic_length
      = Except.ok (if 1000 < k then fmt2 (((k : ℚ)) / 1000) ++ " km" else toString k ++ " meters") := by
    intro k
    have h : (extract_route_details (routeDetailsPayload (.int 1000) (.int 0) (.int 0) (.int k)
        "2024-01-01T08:00:00" "2024-01-01T08:10:00" "car")).map RouteDetails.traffic_length
      = Except.ok (if ((k : ℚ)) > 1000 then fmt2 (((k : ℚ)) / 1000) ++ " km"
          else toString k ++ " meters") := rfl
    rw [h]
    have hc : ((1000 : ℚ)) = (((1000 : ℤ)) : ℚ) := by norm_cast
    simp only [gt_iff_lt, hc, Int.cast_lt]
  refine ⟨key m, ?_, ?_, ?_⟩
  · rw [key 1500, if_pos (by norm_num),
      fmt2_eval (show roundHalfEven (((((1500 : ℤ)) : ℚ)) / 1000 * 100) = 150 by
        norm_num [roundHalfEven])]
    rfl
  · rw [key 800, if_neg (by norm_num)]; rfl
  · rw [key 1000, if_neg (by norm_num)]; rfl

/-- C6: extract_route_details decomposes whole seconds of travel time and
traffic delay into hours, minutes and seconds by integer division by 3600
and then 60, renders them as H hr M min S sec with minutes and seconds
strictly below 60, and 3725 seconds render as 1 hr 2 min 5 sec. -/
theorem c6_time_decomposition (s t : ℕ) :
    ((extract_route_details (routeDetailsPayload (.int 1000) (.int (s : ℤ)) (.int (t : ℤ)) (.int 500)
        "2024-01-01T08:00:00" "2024-01-01T08:10:00" "car")).map RouteDetails.travel_time
      = Except.ok (toString (s / 3600) ++ " hr " ++ toString (s % 3600 / 60) ++ " min "
          ++ toString (s % 3600 % 60) ++ " sec"))
    ∧ ((extract_route_details (routeDetailsPayload (.int 1000) (.int (s : ℤ)) (.int (t : ℤ)) (.int 500)
        "2024-01-01T08:00:00" "2024-01-01T08:10:00" "car")).map RouteDetails.traffic_delay
      = Except.ok (toString (t / 3600) ++ " hr " ++ toString (t % 3600 / 60) ++ " min "
          ++ toString (t % 3600 % 60) ++ " sec"))
    ∧ s % 3600 / 60 < 60 ∧ s % 3600 % 60 < 60 ∧ t % 3600 / 60 < 60 ∧ t % 3600 % 60 < 60
    ∧ ((extract_route_details (routeDetailsPayload (.int 1000) (.int 3725) (.int 0) (.int 500)
        "2024-01-01T08:00:00" "2024-01-01T08:10:00" "car")).map RouteDetails.travel_time
      = Except.ok "1 hr 2 min 5 sec") := by
  have h36 : ((3600 : ℤ)) = ((3600 : ℕ) : ℤ) := by norm_cast
  have h60 : ((60 : ℤ)) = ((60 : ℕ) : ℤ) := by norm_cast
  refine ⟨?_, ?_, by omega, by omega, by omega, by omega, by rfl⟩
  · have h : (extract_route_details (routeDetailsPayload (.int 1000) (.int (s : ℤ)) (.int (t : ℤ)) (.int 500)
        "2024-01-01T08:00:00" "2024-01-01T08:10:00" "car")).map RouteDetails.travel_time
      = Except.ok (toString (((s : ℤ)).fdiv 3600) ++ " hr " ++
            toString ((((s : ℤ)).fmod 3600).fdiv 60) ++ " min " ++
            toString ((((s : ℤ)).fmod 3600).fmod 60) ++ " sec") := rfl
    rw [h]
    simp only [h36, h60, natCast_fdiv, natCast_fmod, toString_intCast]
  · have h : (extract_route_details (routeDetailsPayload (.int 1000) (.int (s : ℤ)) (.int (t : ℤ)) (.int 500)
        "2024-01-01T08:00:00" "2024-01-01T08:10:00" "car")).map RouteDetails.traffic_delay
      = Except.ok (toString (((t : ℤ)).fdiv 3600) ++ " hr " ++
            toString ((((t : ℤ)).fmod 3600).fdiv 60) ++ " min " ++
            toString ((((t : ℤ)).fmod 3600).fmod 60) ++ " sec") := rfl
    rw [h]
    simp only [h36, h60, natCast_fdiv, natCast_fmod, toString_intCast]

/-- C7: check_road_accidents returns exactly one of two fixed strings,
determined solely by whether the points-of-interest list is non-empty: the
empty list yields the no-accidents string and any non-empty list, even a
single element, yields the accidents string; no severity or count appears. -/
theorem c7_accident_presence_message (pois : List JVal) :
    (check_road_accidents (incidentsPayload pois) =
      Except.ok ⟨if pois.isEmpty then "There are no road accidents."
        else "There are road accidents."⟩)
    ∧ check_road_accidents (incidentsPayload []) =
        Except.ok ⟨"There are no road accidents."⟩
    ∧ check_road_accidents (incidentsPayload [.obj []]) =
        Except.ok ⟨"There are road accidents."⟩ := by
  refine ⟨?_, rfl, rfl⟩
  cases pois <;> rfl

set_option maxRecDepth 8192 in
/-- C8 (counterexample): the claim says the published message is exactly the
§6 template with no extra characters including line spacing; the message the
code builds carries a trailing space before the newline on the Travel Time
and Traffic Delay lines, so at concrete field values it differs from the §6
template instantiated with the same values. -/
theorem c8_template_counterexample :
    (send_sns_alert "A" "B" "x@example.com"
      { congestion_level := "60.00%", congestion_category := "High" }
      { road_accidents := "There are no road accidents." }
      { distance_km := .int 1
        travel_time := "0 hr 10 min 0 sec"
        traffic_delay := "0 hr 0 min 0 sec"
        traffic_length := "1.20 km"
        departure_time := "2024-01-01 08:00:00"
        arrival_time := "2024-01-01 08:10:00"
        travel_mode := "Car" }).message
    ≠ specNotificationMessage "A" "B"
      { congestion_level := "60.00%", congestion_category := "High" }
      { road_accidents := "There are no road accidents." }
      { distance_km := .int 1
        travel_time := "0 hr 10 min 0 sec"
        traffic_delay := "0 hr 0 min 0 sec"
        traffic_length := "1.20 km"
        departure_time := "2024-01-01 08:00:00"
        arrival_time := "2024-01-01 08:10:00"
        travel_mode := "Car" } := by decide

/-- C8 (amended): on every invocation the publish call goes to the fixed
topic with subject Traffic Alert and exactly one message attribute, named
email, of String type, carrying the requester address; the message is the §6
template instantiated with the derived fields except that the Travel Time
and Traffic Delay lines end with one trailing space before their newline. -/
theorem c8_notification_shape_amended (fl tl em : String) (cg : CongestionResult)
    (acc : AccidentResult) (rd : RouteDetails) :
    send_sns_alert fl tl em cg acc rd =
      { topicArn := SNS_TOPIC_ARN
        message := specNotificationMessageAmended fl tl cg acc rd
        subject := "Traffic Alert"
        messageAttributes := [("email", "String", em)] } := rfl

/-- The modelled keystream byte is below 256. -/
theorem keyStream_lt (key : List ℕ) (i : ℕ) : keyStream key i < 256 :=
  Nat.mod_lt _ (by norm_num)

/-- Decrypting an encryption from any stream position restores any byte list
whose entries are bytes. -/
theorem fernet_from_roundtrip (key : List ℕ) (bs : List ℕ) :
    ∀ i : ℕ, (∀ b ∈ bs, b < 256) →
      fernetDecryptFrom key i (fernetEncryptFrom key i bs) = bs := by
  induction bs with
  | nil => intro i _; rfl
  | cons b rest ih =>
    intro i h
    have hb : b < 256 := h b (List.mem_cons_self b rest)
    have hk : keyStream key i < 256 := keyStream_lt key i
    simp only [fernetEncryptFrom, fernetDecryptFrom, List.cons.injEq]
    exact ⟨by omega, ih (i + 1) (fun x hx => h x (List.mem_cons_of_mem b hx))⟩

/-- Every entry of a serialized record is a byte. -/
theorem serializeOutput_bytes_lt (r : OutputRecord) : ∀ b ∈ serializeOutput r, b < 256 := by
  intro b hb
  simp only [serializeOutput, List.mem_map] at hb
  obtain ⟨u, _, rfl⟩ := hb
  exact u.toNat_lt

/-- C9: for every one-time key and every OutputRecord, decrypting the
encryption of the serialized record with the same key reproduces the
serialized record byte for byte. -/
theorem c9_encrypt_decrypt_roundtrip (key : List ℕ) (r : OutputRecord) :
    fernetDecrypt key (fernetEncrypt key (serializeOutput r)) = serializeOutput r :=
  fernet_from_roundtrip key (serializeOutput r) 0 (serializeOutput_bytes_lt r)

/-- C10: a 500 response does not imply nothing was persisted: when the fetch
and all derivations succeed, the S3 write succeeds and the SNS publish then
raises a Boto3Error, lambda_handler returns 500 with body
"Error with AWS services" while the encrypted serialized OutputRecord
remains recorded as written to the bucket (the write is not rolled back). -/
theorem c10_storage_persists_on_sns_failure (env : HandlerEnv) (ev : Event) (data : JVal)
    (cg : CongestionResult) (acc : AccidentResult) (rd : RouteDetails)
    (hf : fetchStep env = Except.ok data)
    (hc : calculate_congestion_level data = Except.ok cg)
    (ha : check_road_accidents data = Except.ok acc)
    (hr : extract_route_details data = Except.ok rd)
    (hs3 : env.s3Outcome = none)
    (hsns : env.snsOutcome = some PyExc.boto3Error) :
    lambda_handler env ev = (.response 500 (jstr "Error with AWS services"),
      [Effect.s3Put BUCKET_NAME ("traffic_data_" ++ env.nowStamp ++ ".json")
        (fernetEncrypt env.fernetKey (serializeOutput
          { email := ev.email
            route_details := rd
            congestion_details := cg
            road_accident_details := acc }))]) := by
  simp only [lambda_handler, runPipeline, hf, hc, ha, hr, hs3, hsns, handleExc]

/-- C10 (witness): the property instantiated on the sample scenario with a
failing SNS publish. -/
theorem c10_storage_persists_on_sns_failure_witness :
    fetchStep
      { fetch := .response 200 (some samplePayload)
        s3Outcome := none
        snsOutcome := some PyExc.boto3Error
        fernetKey := [7]
        nowStamp := "20240101080000" }
      = Except.ok samplePayload
    ∧ calculate_congestion_level samplePayload = Except.ok sampleCongestion
    ∧ check_road_accidents samplePayload = Except.ok sampleAccident
    ∧ extract_route_details samplePayload = Except.ok sampleRoute
    ∧ lambda_handler
      { fetch := .response 200 (some samplePayload)
        s3Outcome := none
        snsOutcome := some PyExc.boto3Error
        fernetKey := [7]
        nowStamp := "20240101080000" } sampleEvent
      = (.response 500 (jstr "Error with AWS services"),
        [Effect.s3Put BUCKET_NAME "traffic_data_20240101080000.json"
          (fernetEncrypt [7] (serializeOutput
            { email := "x@example.com"
              route_details := sampleRoute
              congestion_details := sampleCongestion
              road_accident_details := sampleAccident }))]) :=
  ⟨rfl, sample_congestion_eq, sample_accident_eq, sample_route_eq,
    c10_storage_persists_on_sns_failure _ sampleEvent samplePayload sampleCongestion
      sampleAccident sampleRoute rfl sample_congestion_eq sample_accident_eq
      sample_route_eq rfl rfl⟩
